import Mathlib

/-!
Verification development for the LDrawy rendering helper library.

The repository has two variants: an older glium-based one (src/lib.rs,
module drawy) and a wgpu-based one (src/render/brush.rs,
src/render/texture.rs).  We embed the relevant data model and operations
shallowly: f32 values are modelled as rationals, u32/u64 machine integers
as Nat (no claim here depends on wraparound), Rust Vec as List,
HashMap as an association list whose entry order stands for the map's
iteration order, and panicking operations return Option (none = panic).
Results of the wrapped graphics API (shader compilation, buffer swap,
draw submission) are modelled as Except values carried by the wrapper
structures.
-/

namespace drawy

/-- Model of f32 coordinates and color channels: exact rationals. -/
abbrev F32 := ℚ

/-- Color from src/lib.rs: four public channel fields. -/
structure Color where
  r : F32
  g : F32
  b : F32
  a : F32
deriving DecidableEq

/-- Color::new from src/lib.rs lines 22-24: stores the arguments unchanged. -/
def Color.new (r g b a : F32) : Color := { r := r, g := g, b := b, a := a }

/-- Vertex from src/lib.rs lines 156-159: a two component position array. -/
structure Vertex where
  pos : F32 × F32
deriving DecidableEq

/-- Vertex::from_viewport from src/lib.rs lines 162-164. -/
def Vertex.from_viewport (x y : F32) : Vertex := { pos := (x, y) }

/-- Vertex::x accessor from src/lib.rs lines 173-175. -/
def Vertex.x (self : Vertex) : F32 := self.pos.1

/-- Vertex::y accessor from src/lib.rs lines 178-180. -/
def Vertex.y (self : Vertex) : F32 := self.pos.2

/-- ShapeBatch from src/lib.rs lines 192-196: accumulated vertices and
indices.  Indices are u32 in the source (len() as u32); modelled as Nat. -/
structure ShapeBatch where
  vertices : List Vertex
  indices : List Nat
deriving DecidableEq

/-- Vec::push on the vertex list. -/
def ShapeBatch.push_vertex (self : ShapeBatch) (v : Vertex) : ShapeBatch :=
  { self with vertices := self.vertices ++ [v] }

/-- Vec::push on the index list. -/
def ShapeBatch.push_index (self : ShapeBatch) (i : Nat) : ShapeBatch :=
  { self with indices := self.indices ++ [i] }

/-- ShapeBatch::add_triangle from src/lib.rs lines 200-208, with the pushes
in source order.  Note the source takes the base index from
self.indices.len(), not from the vertex count. -/
def ShapeBatch.add_triangle (self : ShapeBatch) (v0 v1 v2 : Vertex) : ShapeBatch :=
  let index := self.indices.length
  let s := self.push_vertex v0
  let s := s.push_index index
  let s := s.push_vertex v1
  let s := s.push_index (index + 1)
  let s := s.push_vertex v2
  s.push_index (index + 2)

/-- ShapeBatch::add_square from src/lib.rs lines 211-228, with the pushes in
source order: four corner vertices first, then six indices whose base is
read from self.indices.len() after the vertex pushes. -/
def ShapeBatch.add_square (self : ShapeBatch) (c : Vertex) (w h : F32) : ShapeBatch :=
  let hw := w / 2
  let hh := h / 2
  let s := self.push_vertex (Vertex.from_viewport (c.x - hw) (c.y - hh))
  let s := s.push_vertex (Vertex.from_viewport (c.x + hw) (c.y - hh))
  let s := s.push_vertex (Vertex.from_viewport (c.x - hw) (c.y + hh))
  let s := s.push_vertex (Vertex.from_viewport (c.x + hw) (c.y + hh))
  let index := s.indices.length
  let s := s.push_index index
  let s := s.push_index (index + 1)
  let s := s.push_index (index + 2)
  let s := s.push_index (index + 2)
  let s := s.push_index (index + 1)
  s.push_index (index + 3)

/-- Frame limiter computation from Window::create_and_run, src/lib.rs lines
93-99: the u64 wait_time as the code computes it (Nat division and
truncating subtraction, mirroring the guarded branch). -/
def wait_time (max_fps elapsed_time : Nat) : Nat :=
  match decide (max_fps > 0) && decide (1000 / max_fps ≥ elapsed_time) with
  | true => 1000 / max_fps - elapsed_time
  | false => 0

/-- Division that records a division by zero as a panic. -/
def checkedDiv (a b : Nat) : Option Nat :=
  if b = 0 then none else some (a / b)

/-- Unsigned subtraction that records underflow as a panic. -/
def checkedSub (a b : Nat) : Option Nat :=
  if a < b then none else some (a - b)

/-- Frame limiter from src/lib.rs lines 93-99 with evaluation-order
accounting: the guard's division is only reached when max_fps > 0 thanks to
short-circuit evaluation, and the subtraction branch re-evaluates the
division.  Returns none when a division by zero or an underflow occurs. -/
def wait_time_checked (max_fps elapsed_time : Nat) : Option Nat := do
  let guard ←
    if max_fps > 0 then do
      let q ← checkedDiv 1000 max_fps
      pure (decide (q ≥ elapsed_time))
    else
      pure false
  match guard with
  | true => do
    let q ← checkedDiv 1000 max_fps
    checkedSub q elapsed_time
  | false => pure 0

/-- Abstract token for glium's SwapBuffersError. -/
abbrev SwapBuffersError := Nat

/-- Abstract token for glium's ProgramCreationError. -/
abbrev ProgramCreationError := Nat

/-- Abstract token for glium's DrawError. -/
abbrev DrawError := Nat

/-- Model of a compiled glium Program: the sources it was built from. -/
structure Program where
  vertex : String
  fragment : String
  geometry : Option String
deriving DecidableEq

/-- Model of the glium Display: what the underlying
glium Program::from_source call returns for a given source triple. -/
structure Display where
  compile : String → String → Option String → Except ProgramCreationError Program

/-- WindowSettings from src/lib.rs lines 53-55. -/
structure WindowSettings where
  max_fps : Nat

/-- Window from src/lib.rs lines 57-62. -/
structure Window where
  settings : WindowSettings
  display : Display
  delta_time : ℚ
  frame_count : Nat

/-- Model of a glium Frame: the underlying swap-buffers result and the
underlying draw-call result for given buffers and program. -/
structure Frame where
  finish_result : Except SwapBuffersError Unit
  draw : List Vertex → List Nat → Program → Except DrawError Unit

/-- Canvas from src/lib.rs lines 290-292. -/
structure Canvas where
  frame : Frame

/-- ShapeBuffer from src/lib.rs lines 232-235: baked vertex and index
buffers. -/
structure ShapeBuffer where
  vertex_buffer : List Vertex
  index_buffer : List Nat

/-- Rust Result::unwrap, with a panic modelled as none. -/
def glium_unwrap {ε α : Type} : Except ε α → Option α
  | Except.ok a => some a
  | Except.error _ => none

/-- Brush from src/lib.rs lines 254-256 (glium variant). -/
structure Brush where
  program : Program

/-- The vertex shader literal of Brush::new_basic, src/lib.rs lines 262-268. -/
def BASIC_VERTEX_SHADER : String :=
  "#version 330 core\nin vec2 pos;\nvoid main() \x7b\n    gl_Position = vec4(pos, 0.0, 1.0);\n\x7d\n"

/-- The fragment shader literal of Brush::new_basic, src/lib.rs lines 269-275. -/
def BASIC_FRAGMENT_SHADER : String :=
  "#version 330 core\nout vec4 color;\nvoid main() \x7b\n    color = vec4(1.0, 1.0, 0.0, 1.0);\n\x7d\n"

/-- Brush::new_basic from src/lib.rs lines 259-280: compiles the built-in
shader pair and unwraps (none models the panic on compilation failure). -/
def Brush.new_basic (wnd : Window) : Option Brush :=
  (glium_unwrap (wnd.display.compile BASIC_VERTEX_SHADER BASIC_FRAGMENT_SHADER none)).map
    fun program => { program := program }

/-- Brush::from_source from src/lib.rs lines 281-287 (glium variant):
compiles the given sources and unwraps. -/
def Brush.from_source (wnd : Window) (vertex fragment : String)
    (geometry : Option String) : Option Brush :=
  (glium_unwrap (wnd.display.compile vertex fragment geometry)).map
    fun program => { program := program }

/-- Canvas::finish_canvas from src/lib.rs lines 298-300: returns the
underlying swap-buffers result as is. -/
def Canvas.finish_canvas (self : Canvas) : Except SwapBuffersError Unit :=
  self.frame.finish_result

/-- Canvas::draw_batch from src/lib.rs lines 301-311: submits the draw call
and unwraps its result (none models the panic on draw failure). -/
def Canvas.draw_batch (self : Canvas) (_wnd : Window) (brush : Brush)
    (buffers : ShapeBuffer) : Option Unit :=
  glium_unwrap (self.frame.draw buffers.vertex_buffer buffers.index_buffer brush.program)

/-- Concrete batch: two unit squares centred at the origin added to an
initially empty batch. -/
def two_squares_batch : ShapeBatch :=
  (({ vertices := [], indices := [] } : ShapeBatch).add_square
      (Vertex.from_viewport 0 0) 2 2).add_square (Vertex.from_viewport 0 0) 2 2

/-- Concrete batch: one 4 by 2 square centred at the origin added to an
initially empty batch. -/
def one_square_batch : ShapeBatch :=
  ({ vertices := [], indices := [] } : ShapeBatch).add_square
    (Vertex.from_viewport 0 0) 4 2

/-- Concrete batch: one_square_batch with a second 4 by 2 square centred at
(10, 10). -/
def second_square_batch : ShapeBatch :=
  one_square_batch.add_square (Vertex.from_viewport 10 10) 4 2

end drawy

namespace render

/-- Abstract handle for a user resource passed to Brush::bind (a value
implementing ToBinder in the source). -/
abbrev Asset := Nat

/-- Modelled from the spec: the Binder type (its source file is not under
src/; only src/render/brush.rs calls it) is the helper that maps
user-supplied resources to bind-group layout slots.  We model it as the
association of location indices to bound assets. -/
abbrev Binder := List (Nat × Asset)

/-- Modelled from the spec: Binder::new starts with no slots bound. -/
def Binder.new : Binder := []

/-- Modelled from the spec: Binder::bind assigns an asset to a layout slot,
overwriting the slot when it was already bound. -/
def Binder.bind (self : Binder) (loc : Nat) (asset : Asset) : Binder :=
  if (List.any self fun p => p.1 == loc)
  then List.map (fun p => if p.1 == loc then (loc, asset) else p) self
  else self ++ [(loc, asset)]

/-- Modelled from the spec: a baked bind group layout, one entry per bound
slot. -/
abbrev BindGroupLayout := List Nat

/-- Modelled from the spec: a baked bind group, the bound resources. -/
abbrev BindGroup := List (Nat × Asset)

/-- Modelled from the spec: Binder::bake, as called at
src/render/brush.rs line 78, produces exactly one bind group layout and
one bind group from the binder's slots. -/
def Binder.bake (self : Binder) : BindGroupLayout × BindGroup :=
  (List.map Prod.fst self, self)

/-- A compiled shader module, identified by its WGSL source string. -/
abbrev ShaderModule := String

/-- Model of the render pipeline built by Brush::update: it records the
shader and the bind group layouts handed to the pipeline layout
descriptor, in order. -/
structure RenderPipeline where
  shader : ShaderModule
  bind_group_layouts : List BindGroupLayout
deriving DecidableEq

/-- Brush from src/render/brush.rs lines 21-27.  The HashMap u32 -> Binder
is an association list; its entry order models the map's iteration order. -/
structure Brush where
  compiled_shader : ShaderModule
  cached_pipeline : Option RenderPipeline
  cached_bindings : List (Nat × BindGroup)
  assets_to_bind : List (Nat × Binder)
  needs_update : Bool

/-- HashMap::get on the modelled map. -/
def mapFind (m : List (Nat × Binder)) (k : Nat) : Option Binder :=
  (List.find? (fun p => p.1 == k) m).map Prod.snd

/-- In-place update of the binder stored under an existing key. -/
def mapModify (m : List (Nat × Binder)) (k : Nat) (f : Binder → Binder) :
    List (Nat × Binder) :=
  List.map (fun p => if p.1 == k then (k, f p.2) else p) m

/-- Brush::from_source from src/render/brush.rs lines 38-53 (shader module
creation is infallible there, so the Ok wrapper is dropped): fresh caches,
no pipeline, needs_update set. -/
def Brush.from_source (shader_source : String) : Brush :=
  { compiled_shader := shader_source
    assets_to_bind := []
    cached_bindings := []
    cached_pipeline := none
    needs_update := true }

/-- Brush::bind from src/render/brush.rs lines 57-67: route the asset into
the existing binder for the group, or insert a new binder, then mark the
brush dirty. -/
def Brush.bind (self : Brush) (group_index loc_index : Nat) (asset : Asset) : Brush :=
  match mapFind self.assets_to_bind group_index with
  | some _ =>
    { self with
      assets_to_bind :=
        mapModify self.assets_to_bind group_index fun b => b.bind loc_index asset
      needs_update := true }
  | none =>
    { self with
      assets_to_bind :=
        self.assets_to_bind ++ [(group_index, Binder.new.bind loc_index asset)]
      needs_update := true }

/-- Brush::needs_update from src/render/brush.rs line 70. -/
def Brush.needs_update_fn (self : Brush) : Bool := self.needs_update

/-- The sorted (group index, bind group layout) pairs Brush::update builds:
bake every binder, then sort by group index ascending
(src/render/brush.rs lines 76-82). -/
def Brush.layout_entries (self : Brush) : List (Nat × BindGroupLayout) :=
  List.insertionSort (fun a b => a.1 ≤ b.1)
    (List.map (fun p => (p.1, (Binder.bake p.2).1)) self.assets_to_bind)

/-- The pipeline Brush::update creates (src/render/brush.rs lines 83-118):
the pipeline layout descriptor receives the sorted layouts. -/
def Brush.built_pipeline (self : Brush) : RenderPipeline :=
  { shader := self.compiled_shader
    bind_group_layouts := List.map Prod.snd self.layout_entries }

/-- Brush::update from src/render/brush.rs lines 73-121: rebuild
cached_bindings (one bind group per map entry, in iteration order), build
the pipeline from the sorted layouts, cache it and clear the dirty flag. -/
def Brush.update (self : Brush) : Brush :=
  { self with
    cached_bindings := List.map (fun p => (p.1, (Binder.bake p.2).2)) self.assets_to_bind
    cached_pipeline := some self.built_pipeline
    needs_update := false }

/-- Brush::get_pipeline from src/render/brush.rs line 123: unwraps the
cached pipeline; none models the panic on a never-updated brush. -/
def Brush.get_pipeline (self : Brush) : Option RenderPipeline := self.cached_pipeline

/-- Brush::get_bind_groups from src/render/brush.rs line 125. -/
def Brush.get_bind_groups (self : Brush) : List (Nat × BindGroup) := self.cached_bindings

/-- The state-mutating Brush operations (the getters take an immutable
borrow and cannot change the brush). -/
inductive BrushOp where
  | bindOp (group_index loc_index : Nat) (asset : Asset)
  | updateOp
deriving DecidableEq

/-- Apply one mutating operation. -/
def Brush.apply (self : Brush) : BrushOp → Brush
  | BrushOp.bindOp g l a => self.bind g l a
  | BrushOp.updateOp => self.update

/-- Apply a sequence of mutating operations, oldest first. -/
def Brush.applyAll (self : Brush) : List BrushOp → Brush
  | [] => self
  | op :: ops => (self.apply op).applyAll ops

/-- True when the last operation of the sequence is an update: after it the
brush has not been modified since the pipeline and bindings were rebuilt. -/
def lastIsUpdate : List BrushOp → Bool
  | [] => false
  | [op] => decide (op = BrushOp.updateOp)
  | _ :: op :: ops => lastIsUpdate (op :: ops)

instance : DecidableRel (fun (a b : Nat × BindGroupLayout) => a.1 ≤ b.1) :=
  fun a b => Nat.decLe a.1 b.1

instance : IsTotal (Nat × BindGroupLayout) (fun a b => a.1 ≤ b.1) :=
  ⟨fun a b => Nat.le_total a.1 b.1⟩

instance : IsTrans (Nat × BindGroupLayout) (fun a b => a.1 ≤ b.1) :=
  ⟨fun _ _ _ => Nat.le_trans⟩

/-- A concrete brush with two bound group indices, used as a witness. -/
def sampleBrush : Brush := ((Brush.from_source "wgsl").bind 1 0 7).bind 0 2 9

/-- A concrete operation sequence whose last update is followed by a bind. -/
def sampleOps : List BrushOp :=
  [BrushOp.bindOp 0 0 5, BrushOp.updateOp, BrushOp.bindOp 1 1 6]

/-- TextureUsage bitflags from src/render/texture.rs lines 12-21, as u32
bit patterns. -/
abbrev TextureUsage := Nat

/-- DESTINATION flag, bit 0. -/
def TextureUsage.DESTINATION : TextureUsage := 1 <<< 0

/-- SOURCE flag, bit 1. -/
def TextureUsage.SOURCE : TextureUsage := 1 <<< 1

/-- TEXTURE_BIND flag, bit 2. -/
def TextureUsage.TEXTURE_BIND : TextureUsage := 1 <<< 2

/-- STORAGE_BIND flag, bit 3. -/
def TextureUsage.STORAGE_BIND : TextureUsage := 1 <<< 3

/-- RENDER flag, bit 4. -/
def TextureUsage.RENDER : TextureUsage := 1 <<< 4

/-- The bitflags contains test: all bits of the other flag set are present. -/
def TextureUsage.contains (self other : TextureUsage) : Bool :=
  self &&& other == other

/-- The wgpu TextureUsages bitflags (third-party target of the mapping),
as u32 bit patterns with wgpu's values. -/
abbrev TextureUsages := Nat

/-- Empty wgpu usage set. -/
def TextureUsages.empty : TextureUsages := 0

/-- wgpu COPY_SRC, bit 0. -/
def TextureUsages.COPY_SRC : TextureUsages := 1 <<< 0

/-- wgpu COPY_DST, bit 1. -/
def TextureUsages.COPY_DST : TextureUsages := 1 <<< 1

/-- wgpu TEXTURE_BINDING, bit 2. -/
def TextureUsages.TEXTURE_BINDING : TextureUsages := 1 <<< 2

/-- wgpu STORAGE_BINDING, bit 3. -/
def TextureUsages.STORAGE_BINDING : TextureUsages := 1 <<< 3

/-- wgpu RENDER_ATTACHMENT, bit 4. -/
def TextureUsages.RENDER_ATTACHMENT : TextureUsages := 1 <<< 4

/-- TextureUsage::get_wgpu_usages from src/render/texture.rs lines 24-42:
start from the empty set and or in the wgpu counterpart of each contained
flag. -/
def TextureUsage.get_wgpu_usages (self : TextureUsage) : TextureUsages :=
  let usage := TextureUsages.empty
  let usage := if TextureUsage.contains self TextureUsage.DESTINATION
    then usage ||| TextureUsages.COPY_DST else usage
  let usage := if TextureUsage.contains self TextureUsage.SOURCE
    then usage ||| TextureUsages.COPY_SRC else usage
  let usage := if TextureUsage.contains self TextureUsage.TEXTURE_BIND
    then usage ||| TextureUsages.TEXTURE_BINDING else usage
  let usage := if TextureUsage.contains self TextureUsage.STORAGE_BIND
    then usage ||| TextureUsages.STORAGE_BINDING else usage
  let usage := if TextureUsage.contains self TextureUsage.RENDER
    then usage ||| TextureUsages.RENDER_ATTACHMENT else usage
  usage

/-- The value of get_wgpu_usages as a function of the five tested bits,
with the same accumulation structure. -/
def usages_of_bits (b0 b1 b2 b3 b4 : Bool) : TextureUsages :=
  let usage := TextureUsages.empty
  let usage := if b0 then usage ||| TextureUsages.COPY_DST else usage
  let usage := if b1 then usage ||| TextureUsages.COPY_SRC else usage
  let usage := if b2 then usage ||| TextureUsages.TEXTURE_BINDING else usage
  let usage := if b3 then usage ||| TextureUsages.STORAGE_BINDING else usage
  let usage := if b4 then usage ||| TextureUsages.RENDER_ATTACHMENT else usage
  usage

end render

section ShapeBatchClaims

open drawy

/-- C5: ShapeBatch is a pure accumulator: add_triangle appends exactly 3
vertices and 3 indices, add_square appends exactly 4 vertices and 6
indices, and both leave the previously accumulated vertices and indices in
place as a prefix of the new lists. -/
theorem c5_shape_batch_pure_accumulator
    (b : ShapeBatch) (v0 v1 v2 c : Vertex) (w h : F32) :
    ((b.add_triangle v0 v1 v2).vertices = b.vertices ++ [v0, v1, v2]
      ∧ (b.add_triangle v0 v1 v2).indices =
          b.indices ++ [b.indices.length, b.indices.length + 1, b.indices.length + 2]
      ∧ (b.add_triangle v0 v1 v2).vertices.length = b.vertices.length + 3
      ∧ (b.add_triangle v0 v1 v2).indices.length = b.indices.length + 3)
    ∧ ((b.add_square c w h).vertices =
        b.vertices ++
          [Vertex.from_viewport (c.x - w / 2) (c.y - h / 2),
           Vertex.from_viewport (c.x + w / 2) (c.y - h / 2),
           Vertex.from_viewport (c.x - w / 2) (c.y + h / 2),
           Vertex.from_viewport (c.x + w / 2) (c.y + h / 2)]
      ∧ (b.add_square c w h).indices =
          b.indices ++ [b.indices.length, b.indices.length + 1, b.indices.length + 2,
            b.indices.length + 2, b.indices.length + 1, b.indices.length + 3]
      ∧ (b.add_square c w h).vertices.length = b.vertices.length + 4
      ∧ (b.add_square c w h).indices.length = b.indices.length + 6) := by
  refine ⟨⟨?_, ?_, ?_, ?_⟩, ⟨?_, ?_, ?_, ?_⟩⟩ <;>
    simp [ShapeBatch.add_triangle, ShapeBatch.add_square, ShapeBatch.push_vertex,
      ShapeBatch.push_index]

/-- C7: Vertex::from_viewport and Color::new are direct value wrappers:
the stored components equal the arguments. -/
theorem c7_vertex_color_direct_wrappers (x y r g b a : F32) :
    (Vertex.from_viewport x y).x = x ∧ (Vertex.from_viewport x y).y = y
    ∧ (Color.new r g b a).r = r ∧ (Color.new r g b a).g = g
    ∧ (Color.new r g b a).b = b ∧ (Color.new r g b a).a = a :=
  ⟨rfl, rfl, rfl, rfl, rfl, rfl⟩

/-- C9: the frame limiter never divides by zero and never underflows (the
checked evaluation always returns a value, equal to the code's wait_time),
and wait_time is 0 whenever the guard fails. -/
theorem c9_frame_limiter_safe (max_fps elapsed_time : Nat) :
    wait_time_checked max_fps elapsed_time = some (wait_time max_fps elapsed_time)
    ∧ wait_time max_fps elapsed_time =
        if 0 < max_fps ∧ elapsed_time ≤ 1000 / max_fps
        then 1000 / max_fps - elapsed_time else 0 := by
  by_cases hm : 0 < max_fps
  · by_cases he : elapsed_time ≤ 1000 / max_fps
    · have hnz : max_fps ≠ 0 := Nat.pos_iff_ne_zero.mp hm
      constructor
      · simp [wait_time_checked, wait_time, checkedDiv, checkedSub, hm, he, hnz,
          Nat.not_lt.mpr he]
      · simp [wait_time, hm, he]
    · constructor
      · simp [wait_time_checked, wait_time, checkedDiv, hm, he,
          Nat.pos_iff_ne_zero.mp hm]
      · simp [wait_time, hm, he]
  · constructor
    · simp [wait_time_checked, wait_time, hm]
    · simp [wait_time, hm]

/-- C1: refuted on the code as written.  Starting from the empty batch, two
add_square calls produce 8 vertices, yet the second call appends the
indices 6, 7, 8, 8, 7, 9: its own four vertices sit at positions 4-7, and
8 and 9 are past the end of the vertex list, because add_square reads the
index base from indices.len() instead of the vertex count. -/
theorem c1_second_square_indices_wrong :
    two_squares_batch.vertices.length = 8
    ∧ two_squares_batch.indices = [0, 1, 2, 2, 1, 3, 6, 7, 8, 8, 7, 9]
    ∧ ¬ (∀ i ∈ two_squares_batch.indices, i < two_squares_batch.vertices.length) := by
  refine ⟨?_, ?_, ?_⟩ <;>
    simp [two_squares_batch, ShapeBatch.add_square, ShapeBatch.push_vertex,
      ShapeBatch.push_index]

/-- C4: the four corner vertices are appended exactly as claimed, but on a
batch already holding one square the six indices appended by the next
add_square are 6, 7, 8, 8, 7, 9, none of which form two triangles over the
four newly appended corners at positions 4-7. -/
theorem c4_square_corners_but_indices_miss :
    second_square_batch.vertices = one_square_batch.vertices ++
        [Vertex.from_viewport 8 9, Vertex.from_viewport 12 9,
         Vertex.from_viewport 8 11, Vertex.from_viewport 12 11]
    ∧ second_square_batch.indices.drop 6 = [6, 7, 8, 8, 7, 9]
    ∧ ¬ (∀ i ∈ second_square_batch.indices.drop 6, 4 ≤ i ∧ i ≤ 7) := by
  refine ⟨?_, ?_, ?_⟩ <;>
    norm_num [second_square_batch, one_square_batch, ShapeBatch.add_square,
      ShapeBatch.push_vertex, ShapeBatch.push_index,
      Vertex.from_viewport, Vertex.x, Vertex.y]

end ShapeBatchClaims

section BrushLemmas

open render

theorem bind_needs_update (b : Brush) (g l : Nat) (a : Asset) :
    (b.bind g l a).needs_update = true := by
  unfold Brush.bind
  cases mapFind b.assets_to_bind g <;> rfl

theorem bind_cached_pipeline (b : Brush) (g l : Nat) (a : Asset) :
    (b.bind g l a).cached_pipeline = b.cached_pipeline := by
  unfold Brush.bind
  cases mapFind b.assets_to_bind g <;> rfl

theorem applyAll_append (b : Brush) (xs ys : List BrushOp) :
    b.applyAll (xs ++ ys) = (b.applyAll xs).applyAll ys := by
  induction xs generalizing b with
  | nil => rfl
  | cons op xs ih => simpa [Brush.applyAll] using ih (b.apply op)

theorem applyAll_needs_update (b : Brush) (ops : List BrushOp) :
    (b.applyAll ops).needs_update =
      (if ops.isEmpty then b.needs_update else !(lastIsUpdate ops)) := by
  induction ops generalizing b with
  | nil => rfl
  | cons op ops ih =>
    rw [show b.applyAll (op :: ops) = (b.apply op).applyAll ops from rfl, ih]
    cases ops with
    | nil =>
      cases op with
      | bindOp g l a => simp [Brush.apply, bind_needs_update, lastIsUpdate]
      | updateOp => simp [Brush.apply, Brush.update, lastIsUpdate]
    | cons op2 ops2 => simp [lastIsUpdate]

theorem applyAll_cached_pipeline_none (b : Brush) (ops : List BrushOp) :
    (b.applyAll ops).cached_pipeline = none ↔
      (b.cached_pipeline = none ∧ BrushOp.updateOp ∉ ops) := by
  induction ops generalizing b with
  | nil => simp [Brush.applyAll]
  | cons op ops ih =>
    rw [show b.applyAll (op :: ops) = (b.apply op).applyAll ops from rfl, ih]
    cases op with
    | bindOp g l a => simp [Brush.apply, bind_cached_pipeline]
    | updateOp => simp [Brush.apply, Brush.update]

theorem applyAll_no_update_cached (b : Brush) (ops : List BrushOp)
    (h : BrushOp.updateOp ∉ ops) :
    (b.applyAll ops).cached_pipeline = b.cached_pipeline := by
  induction ops generalizing b with
  | nil => rfl
  | cons op ops ih =>
    rw [show b.applyAll (op :: ops) = (b.apply op).applyAll ops from rfl]
    rw [ih (b.apply op) (fun hm => h (List.mem_cons_of_mem _ hm))]
    cases op with
    | bindOp g l a => exact bind_cached_pipeline b g l a
    | updateOp => exact absurd (List.mem_cons_self _ _) h

theorem no_update_lastIsUpdate (ops : List BrushOp)
    (h : BrushOp.updateOp ∉ ops) : lastIsUpdate ops = false := by
  induction ops with
  | nil => rfl
  | cons op ops ih =>
    cases ops with
    | nil =>
      cases op with
      | bindOp g l a => simp [lastIsUpdate]
      | updateOp => exact absurd (List.mem_cons_self _ _) h
    | cons op2 ops2 =>
      rw [show lastIsUpdate (op :: op2 :: ops2) = lastIsUpdate (op2 :: ops2) from rfl]
      exact ih (fun hm => h (List.mem_cons_of_mem _ hm))

end BrushLemmas

section BrushClaims

open render

/-- C2: from_source yields a brush with needs_update true, bind always sets
it, update always clears it, and over any sequence of mutating operations
(the getters cannot mutate) the flag is true exactly when the last
operation was not an update, i.e. when the brush has been modified since
the pipeline and bindings were last rebuilt. -/
theorem c2_needs_update_exact (s : String) (b : Brush) (g l : Nat) (a : Asset)
    (ops : List BrushOp) :
    (Brush.from_source s).needs_update_fn = true
    ∧ (b.bind g l a).needs_update_fn = true
    ∧ b.update.needs_update_fn = false
    ∧ ((Brush.from_source s).applyAll ops).needs_update_fn = !(lastIsUpdate ops) := by
  refine ⟨rfl, bind_needs_update b g l a, rfl, ?_⟩
  rw [Brush.needs_update_fn, applyAll_needs_update]
  cases ops with
  | nil => rfl
  | cons op ops2 => simp

/-- C3: on any brush whose bound group indices are distinct (as they are in
a HashMap), update bakes exactly one bind group layout per bound group
index and hands them to the pipeline layout descriptor sorted by strictly
ascending group index, and afterwards get_bind_groups holds exactly one
(group index, bind group) pair per bound group index. -/
theorem c3_update_bind_groups (b : Brush)
    (h : (List.map Prod.fst b.assets_to_bind).Nodup) :
    (List.map Prod.fst b.layout_entries).Perm (List.map Prod.fst b.assets_to_bind)
    ∧ List.Sorted (· < ·) (List.map Prod.fst b.layout_entries)
    ∧ b.update.cached_pipeline = some
        { shader := b.compiled_shader
          bind_group_layouts := List.map Prod.snd b.layout_entries }
    ∧ List.map Prod.fst b.update.get_bind_groups = List.map Prod.fst b.assets_to_bind := by
  have hperm : b.layout_entries.Perm
      (List.map (fun p => (p.1, (Binder.bake p.2).1)) b.assets_to_bind) :=
    List.perm_insertionSort _ _
  have hkeys : (List.map Prod.fst b.layout_entries).Perm
      (List.map Prod.fst b.assets_to_bind) := by
    have h2 := hperm.map Prod.fst
    simpa [Function.comp] using h2
  have hsorted : List.Sorted (fun a b => a.1 ≤ b.1) b.layout_entries :=
    List.sorted_insertionSort _ _
  have hnodup : (List.map Prod.fst b.layout_entries).Nodup :=
    hkeys.nodup_iff.mpr h
  refine ⟨hkeys, ?_, rfl, ?_⟩
  · have hne : b.layout_entries.Pairwise (fun a b => a.1 ≠ b.1) :=
      List.pairwise_map.mp hnodup
    have hlt : b.layout_entries.Pairwise (fun a b => a.1 < b.1) :=
      (hsorted.and hne).imp fun hab => lt_of_le_of_ne hab.1 hab.2
    exact List.pairwise_map.mpr hlt
  · simp [Brush.update, Brush.get_bind_groups]

/-- C3 witness: the theorem applied to a concrete brush with bound group
indices 1 and 0. -/
theorem c3_update_bind_groups_witness :
    (List.map Prod.fst sampleBrush.assets_to_bind).Nodup
    ∧ ((List.map Prod.fst sampleBrush.layout_entries).Perm
          (List.map Prod.fst sampleBrush.assets_to_bind)
      ∧ List.Sorted (· < ·) (List.map Prod.fst sampleBrush.layout_entries)
      ∧ sampleBrush.update.cached_pipeline = some
          { shader := sampleBrush.compiled_shader
            bind_group_layouts := List.map Prod.snd sampleBrush.layout_entries }
      ∧ List.map Prod.fst sampleBrush.update.get_bind_groups
          = List.map Prod.fst sampleBrush.assets_to_bind) :=
  ⟨by decide, c3_update_bind_groups sampleBrush (by decide)⟩

/-- C8: starting from from_source, cached_pipeline is none exactly when
update was never applied, in that state needs_update is true, get_pipeline
panics (returns none) exactly when update was never applied, and after at
least one update get_pipeline returns the pipeline built by the most
recent update. -/
theorem c8_get_pipeline_iff_updated (s : String) (ops : List BrushOp) :
    (((Brush.from_source s).applyAll ops).cached_pipeline = none ↔
        BrushOp.updateOp ∉ ops)
    ∧ (((Brush.from_source s).applyAll ops).cached_pipeline = none →
        ((Brush.from_source s).applyAll ops).needs_update_fn = true)
    ∧ (((Brush.from_source s).applyAll ops).get_pipeline = none ↔
        BrushOp.updateOp ∉ ops)
    ∧ ∀ l1 l2, ops = l1 ++ BrushOp.updateOp :: l2 → BrushOp.updateOp ∉ l2 →
        ((Brush.from_source s).applyAll ops).get_pipeline =
          some ((Brush.from_source s).applyAll l1).built_pipeline := by
  have h1 : ((Brush.from_source s).applyAll ops).cached_pipeline = none ↔
      BrushOp.updateOp ∉ ops := by
    rw [applyAll_cached_pipeline_none]
    simp [Brush.from_source]
  refine ⟨h1, ?_, h1, ?_⟩
  · intro hn
    have hno := h1.mp hn
    rw [Brush.needs_update_fn, applyAll_needs_update]
    have hfalse := no_update_lastIsUpdate ops hno
    cases ops with
    | nil => rfl
    | cons op ops2 => simp [hfalse]
  · intro l1 l2 hops hno
    subst hops
    rw [applyAll_append]
    rw [show ((Brush.from_source s).applyAll l1).applyAll (BrushOp.updateOp :: l2) =
        (((Brush.from_source s).applyAll l1).update).applyAll l2 from rfl]
    show (_ : Brush).cached_pipeline = _
    rw [applyAll_no_update_cached _ l2 hno]
    rfl

/-- C8 witness: the theorem applied to a concrete operation sequence whose
only update sits between two binds. -/
theorem c8_get_pipeline_iff_updated_witness :
    sampleOps = [BrushOp.bindOp 0 0 5] ++ BrushOp.updateOp :: [BrushOp.bindOp 1 1 6]
    ∧ BrushOp.updateOp ∉ [BrushOp.bindOp 1 1 6]
    ∧ ((Brush.from_source "wgsl").applyAll sampleOps).get_pipeline =
        some ((Brush.from_source "wgsl").applyAll [BrushOp.bindOp 0 0 5]).built_pipeline :=
  ⟨rfl, by decide,
    (c8_get_pipeline_iff_updated "wgsl" sampleOps).2.2.2 _ _ rfl (by decide)⟩

end BrushClaims

section ErrorClaims

open drawy

/-- C6: glium errors are passed through or panic without recovery:
finish_canvas returns the underlying swap-buffers result unchanged;
from_source, new_basic and draw_batch succeed exactly when the underlying
compile or draw succeeds, wrapping the underlying value, and otherwise
panic (none). -/
theorem c6_errors_passthrough_or_panic (canvas : Canvas) (wnd : Window)
    (v f : String) (g : Option String) (brush : Brush) (buffers : ShapeBuffer) :
    canvas.finish_canvas = canvas.frame.finish_result
    ∧ Brush.from_source wnd v f g =
        (wnd.display.compile v f g).toOption.map (fun p => { program := p })
    ∧ (Brush.from_source wnd v f g).isSome = (wnd.display.compile v f g).toBool
    ∧ Brush.new_basic wnd =
        (wnd.display.compile BASIC_VERTEX_SHADER BASIC_FRAGMENT_SHADER
          none).toOption.map (fun p => { program := p })
    ∧ (canvas.draw_batch wnd brush buffers).isSome =
        (canvas.frame.draw buffers.vertex_buffer buffers.index_buffer
          brush.program).toBool := by
  refine ⟨rfl, ?_, ?_, ?_, ?_⟩
  · cases hc : wnd.display.compile v f g <;>
      simp [Brush.from_source, glium_unwrap, hc, Except.toOption]
  · cases hc : wnd.display.compile v f g <;>
      simp [Brush.from_source, glium_unwrap, hc, Except.toBool]
  · cases hc : wnd.display.compile BASIC_VERTEX_SHADER BASIC_FRAGMENT_SHADER none <;>
      simp [Brush.new_basic, glium_unwrap, hc, Except.toOption]
  · cases hd : canvas.frame.draw buffers.vertex_buffer buffers.index_buffer
        brush.program <;>
      simp [Canvas.draw_batch, glium_unwrap, hd, Except.toBool]

end ErrorClaims

section TextureClaims

open render

theorem contains_shiftLeft (a : Nat) (k : Nat) :
    TextureUsage.contains a (1 <<< k) = a.testBit k := by
  unfold TextureUsage.contains
  rw [Nat.shiftLeft_eq, one_mul, Nat.and_two_pow]
  cases h : a.testBit k with
  | false =>
    have hpos : (0 : Nat) ≠ 2 ^ k := (pow_pos (by norm_num : (0 : ℕ) < 2) k).ne
    simp [hpos]
  | true => simp

theorem get_wgpu_usages_eq_bits (a : TextureUsage) :
    TextureUsage.get_wgpu_usages a =
      usages_of_bits (a.testBit 0) (a.testBit 1) (a.testBit 2) (a.testBit 3)
        (a.testBit 4) := by
  unfold TextureUsage.get_wgpu_usages usages_of_bits
  rw [show TextureUsage.DESTINATION = 1 <<< 0 from rfl,
    show TextureUsage.SOURCE = 1 <<< 1 from rfl,
    show TextureUsage.TEXTURE_BIND = 1 <<< 2 from rfl,
    show TextureUsage.STORAGE_BIND = 1 <<< 3 from rfl,
    show TextureUsage.RENDER = 1 <<< 4 from rfl,
    contains_shiftLeft, contains_shiftLeft, contains_shiftLeft,
    contains_shiftLeft, contains_shiftLeft]

theorem usages_of_bits_or (x0 x1 x2 x3 x4 y0 y1 y2 y3 y4 : Bool) :
    usages_of_bits (x0 || y0) (x1 || y1) (x2 || y2) (x3 || y3) (x4 || y4) =
      usages_of_bits x0 x1 x2 x3 x4 ||| usages_of_bits y0 y1 y2 y3 y4 := by
  cases x0 <;> cases x1 <;> cases x2 <;> cases x3 <;> cases x4 <;>
    cases y0 <;> cases y1 <;> cases y2 <;> cases y3 <;> cases y4 <;> decide

/-- C10: get_wgpu_usages is a homomorphism of flag sets: it maps the empty
set to the empty wgpu set, the union of two flag sets to the union of
their images, and each single flag to its wgpu counterpart. -/
theorem c10_get_wgpu_usages_homomorphism :
    TextureUsage.get_wgpu_usages 0 = TextureUsages.empty
    ∧ (∀ a b : TextureUsage,
        TextureUsage.get_wgpu_usages (a ||| b) =
          TextureUsage.get_wgpu_usages a ||| TextureUsage.get_wgpu_usages b)
    ∧ TextureUsage.get_wgpu_usages TextureUsage.DESTINATION = TextureUsages.COPY_DST
    ∧ TextureUsage.get_wgpu_usages TextureUsage.SOURCE = TextureUsages.COPY_SRC
    ∧ TextureUsage.get_wgpu_usages TextureUsage.TEXTURE_BIND =
        TextureUsages.TEXTURE_BINDING
    ∧ TextureUsage.get_wgpu_usages TextureUsage.STORAGE_BIND =
        TextureUsages.STORAGE_BINDING
    ∧ TextureUsage.get_wgpu_usages TextureUsage.RENDER =
        TextureUsages.RENDER_ATTACHMENT := by
  refine ⟨by decide, ?_, by decide, by decide, by decide, by decide, by decide⟩
  intro a b
  rw [get_wgpu_usages_eq_bits, get_wgpu_usages_eq_bits a, get_wgpu_usages_eq_bits b]
  simp only [Nat.testBit_lor]
  exact usages_of_bits_or _ _ _ _ _ _ _ _ _ _

end TextureClaims
